import Mathlib

/-!
# Verification of the animated_router transition core

Shallow embedding of the navigation state machine, the transition policy
resolver and the transform parameter tables of the `animated_router`
repository (src/src/main.rs, src/src/will_hide.rs,
src/crates/route_transitions/src/lib.rs, src/router_derive/src/lib.rs),
together with proofs of the spec's testable properties.

Floating-point values of the source are embedded as exact rationals (ℚ);
all constants appearing in the source are exactly representable.
-/

namespace AnimatedRouter

/-! ## Navigation state machine

From `src/src/main.rs` lines 6–40 (textually duplicated in
`src/src/will_hide.rs` lines 9–43).  The Rust enum is generic over a
route type `R : Routable + PartialEq`; we embed it generically over a
type `R`.
-/

/-- `AnimatedRouterContext<R>`: `FromTo(from, to)` is a transition in
flight, `In(route)` is a settled route. -/
inductive AnimatedRouterContext (R : Type) where
  | FromTo (f t : R)
  | In (t : R)
  deriving DecidableEq, Repr

namespace AnimatedRouterContext

variable {R : Type}

/-- `target_route`: the current destination route
(main.rs lines 16–21). -/
def target_route : AnimatedRouterContext R → R
  | .FromTo _ t => t
  | .In t => t

/-- `set_target_route`: update the destination route
(main.rs lines 24–32).  In the `FromTo` case the old destination becomes
the new departure point (`*old_from = old_to.clone(); *old_to = to`);
in the `In` case the state becomes `FromTo(old_to, to)`.  There is no
equality check inside this method. -/
def set_target_route : AnimatedRouterContext R → R → AnimatedRouterContext R
  | .FromTo _ old_to, t => .FromTo old_to t
  | .In old_to, t => .FromTo old_to t

/-- `settle`: collapse a transition onto its destination
(main.rs lines 35–39); a settled state is left untouched. -/
def settle : AnimatedRouterContext R → AnimatedRouterContext R
  | .FromTo _ t => .In t
  | .In t => .In t

end AnimatedRouterContext

/-- The guarded navigation update performed by the `AnimatedRouter`
component (main.rs lines 58–60, will_hide.rs lines 61–63):
`set_target_route` is invoked only when the observed route differs from
the current target (`if prev_route.peek().target_route() != &route`). -/
def navigate {R : Type} [DecidableEq R] (s : AnimatedRouterContext R)
    (route : R) : AnimatedRouterContext R :=
  if s.target_route ≠ route then s.set_target_route route else s

end AnimatedRouter

namespace AnimatedRouter

open AnimatedRouterContext

/-! ## Claims C1, C2, C3, C9 about the state machine -/

/-- C1.  Re-target correctness: from `Settled(A)` (= `In A`),
`set_target_route B` yields `Transitioning(A, B)` (= `FromTo A B`);
a further `set_target_route C` before settling yields `FromTo B C` —
the previous destination becomes the new departure point — and never
`FromTo A C`. -/
theorem retarget_correct {R : Type} (A B C : R)
    (hBA : B ≠ A) (hCB : C ≠ B) :
    (AnimatedRouterContext.In A).set_target_route B =
        AnimatedRouterContext.FromTo A B ∧
    ((AnimatedRouterContext.In A).set_target_route B).set_target_route C =
        AnimatedRouterContext.FromTo B C ∧
    ((AnimatedRouterContext.In A).set_target_route B).set_target_route C ≠
        AnimatedRouterContext.FromTo A C := by
  refine ⟨rfl, rfl, ?_⟩
  intro h
  cases h
  exact hBA rfl

/-- Witness for `retarget_correct` at three concrete natural-number
routes 0, 1, 2. -/
theorem retarget_correct_witness :
    (AnimatedRouterContext.In (0 : ℕ)).set_target_route 1 =
        AnimatedRouterContext.FromTo 0 1 ∧
    ((AnimatedRouterContext.In (0 : ℕ)).set_target_route 1).set_target_route 2 =
        AnimatedRouterContext.FromTo 1 2 ∧
    ((AnimatedRouterContext.In (0 : ℕ)).set_target_route 1).set_target_route 2 ≠
        AnimatedRouterContext.FromTo 0 2 :=
  retarget_correct 0 1 2 (by decide) (by decide)

/-- C2, counterexample.  `set_target_route` is not idempotent: on
`In r` with target already `r` it produces `FromTo r r`, a different
state.  Here at the concrete route `0 : ℕ`. -/
theorem set_target_route_not_idempotent :
    (AnimatedRouterContext.In (0 : ℕ)).target_route = 0 ∧
    (AnimatedRouterContext.In (0 : ℕ)).set_target_route 0 ≠
        AnimatedRouterContext.In 0 := by
  refine ⟨rfl, ?_⟩
  intro h
  cases h

/-- C2, amended.  Idempotence holds one level up: the `AnimatedRouter`
component only calls `set_target_route` when the observed route differs
from the current target, and this guarded update (`navigate`) leaves the
navigation state unchanged whenever `r` already equals the target —
both when the state is `In r` and when it is `FromTo _ r`. -/
theorem navigate_idempotent {R : Type} [DecidableEq R]
    (s : AnimatedRouterContext R) (r : R) (h : s.target_route = r) :
    navigate s r = s := by
  unfold navigate
  simp [h]

/-- Witness for `navigate_idempotent` on the concrete state
`FromTo 0 1` with route `1`. -/
theorem navigate_idempotent_witness :
    navigate (AnimatedRouterContext.FromTo (0 : ℕ) 1) 1 =
        AnimatedRouterContext.FromTo 0 1 :=
  navigate_idempotent (AnimatedRouterContext.FromTo 0 1) 1 rfl

/-- C3.  Settle correctness: `settle` on `FromTo f t` yields `In t`,
and `settle` on `In x` is a no-op. -/
theorem settle_correct {R : Type} (f t x : R) :
    (AnimatedRouterContext.FromTo f t).settle = AnimatedRouterContext.In t ∧
    (AnimatedRouterContext.In x).settle = AnimatedRouterContext.In x :=
  ⟨rfl, rfl⟩

/-- C9.  Target-route postcondition: immediately after
`set_target_route r`, the target route is `r`, unconditionally, for
every starting state. -/
theorem target_route_after_set {R : Type}
    (s : AnimatedRouterContext R) (r : R) :
    (s.set_target_route r).target_route = r := by
  cases s <;> rfl

/-! ## Routes, transforms and transition variants

`Route` is the route enum of `src/src/main.rs` lines 233–257 (the
`PageNotFound` variant carries a `Vec<String>`, embedded as
`List String`).  `Transform` is dioxus_motion's
`Transform { x, y, scale, rotation }` value type, embedded with exact
rationals. -/

/-- The `Route` enum (main.rs lines 233–257). -/
inductive Route where
  | Home
  | SlideLeft
  | SlideRight
  | SlideUp
  | SlideDown
  | Fade
  | Scale
  | PageNotFound (route : List String)
  deriving DecidableEq, Repr

/-- The dioxus_motion `Transform` value type `{x, y, scale, rotation}`
(field order as in `Transform::new(x, y, scale, rotation)`). -/
structure Transform where
  x : ℚ
  y : ℚ
  scale : ℚ
  rotation : ℚ
  deriving DecidableEq, Repr

/-- `Transform::new(x, y, scale, rotation)`. -/
def Transform.new (x y scale rotation : ℚ) : Transform :=
  ⟨x, y, scale, rotation⟩

/-- `TransitionVariant` (main.rs lines 72–81). -/
inductive TransitionVariant where
  | SlideLeft
  | SlideRight
  | SlideUp
  | SlideDown
  | Fade
  | Scale
  | Custom (transform : Transform)
  deriving DecidableEq, Repr

/-- `TransitionVariant::get_transform` (main.rs lines 84–94): the
per-variant target transform table. -/
def TransitionVariant.get_transform : TransitionVariant → Transform
  | .SlideLeft => Transform.new (-100) 0 1 0
  | .SlideRight => Transform.new 100 0 1 0
  | .SlideUp => Transform.new 0 (-100) 1 0
  | .SlideDown => Transform.new 0 100 1 0
  | .Fade => Transform.new 0 0 0 0
  | .Scale => Transform.new 0 0 (1/2) 0
  | .Custom transform => transform

/-- The variant component of the `from_route` match in the
`AnimatedOutlet` component of main.rs (lines 158–220): a per-ordered-pair
mapping from `(from, to)` to a transition variant, with a catch-all arm
`_ => None` (the outlet then renders a plain `Outlet` with no
transition). -/
def from_route_variant : Route → Route → Option TransitionVariant
  | .Home, .SlideLeft => some .SlideLeft
  | .SlideLeft, .Home => some .SlideRight
  | .Home, .SlideRight => some .SlideRight
  | .SlideRight, .Home => some .SlideLeft
  | .Home, .SlideUp => some .SlideUp
  | .SlideUp, .Home => some .SlideDown
  | .Home, .SlideDown => some .SlideDown
  | .SlideDown, .Home => some .SlideUp
  | .Home, .Fade => some .Fade
  | .Fade, .Home => some .Fade
  | .Home, .Scale => some .Scale
  | .Scale, .Home => some .Scale
  | _, _ => none

/-- `Route::get_transition` as generated for the `Route` enum by the
`transition` attribute macro (src/router_derive/src/lib.rs lines 18–33):
an explicit arm per demo route and a catch-all `_ => Fade`, which covers
`PageNotFound`.  The `RouteTransitions` derive macro
(src/crates/route_transitions/src/lib.rs lines 27–47) produces the same
shape, defaulting every variant without a `#[transition(...)]`
attribute to `Fade`. -/
def Route.get_transition : Route → TransitionVariant
  | .Home => .Fade
  | .SlideLeft => .SlideLeft
  | .SlideRight => .SlideRight
  | .SlideUp => .SlideUp
  | .SlideDown => .SlideDown
  | .Fade => .Fade
  | .Scale => .Scale
  | .PageNotFound _ => .Fade

end AnimatedRouter

namespace AnimatedRouter.WillHide

/-! ## The will_hide variant of the transition tables

`src/src/will_hide.rs` defines its own five-variant `TransitionVariant`
(lines 81–88) and a `TransitionConfig` per variant (lines 73–79 and
91–124). -/

/-- `TransitionConfig` (will_hide.rs lines 73–79). -/
structure TransitionConfig where
  initial_from : Transform
  final_from : Transform
  initial_to : Transform
  final_to : Transform
  deriving DecidableEq, Repr

/-- `TransitionVariant` of will_hide.rs (lines 81–88): no `Scale` or
`Custom` variant there. -/
inductive TransitionVariant where
  | SlideLeft
  | SlideRight
  | SlideUp
  | SlideDown
  | Fade
  deriving DecidableEq, Repr

/-- `Transform::identity()` of dioxus_motion (external crate):
`{x: 0, y: 0, scale: 1, rotation: 0}`. -/
def Transform.identity : Transform := Transform.new 0 0 1 0

/-- `TransitionVariant::get_config` (will_hide.rs lines 91–124). -/
def TransitionVariant.get_config : TransitionVariant → TransitionConfig
  | .SlideLeft =>
      { initial_from := Transform.identity
        final_from := Transform.new (-100) 0 1 1
        initial_to := Transform.new 100 0 1 1
        final_to := Transform.identity }
  | .SlideRight =>
      { initial_from := Transform.identity
        final_from := Transform.new 100 0 1 1
        initial_to := Transform.new (-100) 0 1 1
        final_to := Transform.identity }
  | .SlideUp =>
      { initial_from := Transform.identity
        final_from := Transform.new 0 (-100) 1 1
        initial_to := Transform.new 0 100 1 1
        final_to := Transform.identity }
  | .SlideDown =>
      { initial_from := Transform.identity
        final_from := Transform.new 0 100 1 1
        initial_to := Transform.new 0 (-100) 1 1
        final_to := Transform.identity }
  | .Fade =>
      { initial_from := Transform.new 0 0 1 1
        final_from := Transform.new 0 0 1 0
        initial_to := Transform.new 0 0 1 0
        final_to := Transform.new 0 0 1 1 }

/-- The `from_route` selection of the `AnimatedOutlet` component of
will_hide.rs (lines 216–236): on `FromTo(from, to)` the rendered pair is
`(from.get_component(), to.get_transition())` — the transition variant
is computed from the destination route alone; on a settled state there
is no transition.  We embed the variant component. -/
def from_route_variant :
    AnimatedRouterContext Route → Option AnimatedRouter.TransitionVariant
  | .FromTo _ t => some t.get_transition
  | .In _ => none

end AnimatedRouter.WillHide

namespace AnimatedRouter

/-! ## Claims C4, C5, C6, C10 about the policy resolver and the tables -/

/-- C4, counterexample.  The route-pair resolver of `AnimatedOutlet`
(main.rs) does not resolve unmapped pairs to `Fade`: the pair
`(SlideLeft, SlideRight)` has no explicit arm and falls to the
catch-all, which yields `none` (no transition at all), not
`some Fade`. -/
theorem unmapped_pair_not_fade :
    from_route_variant Route.SlideLeft Route.SlideRight = none ∧
    from_route_variant Route.SlideLeft Route.SlideRight ≠
        some TransitionVariant.Fade := by
  refine ⟨rfl, ?_⟩
  intro h
  cases h

/-- C4, amended.  Resolution never fails: both resolvers are total.
The per-route resolver `get_transition` defaults every unmapped route
(`PageNotFound`) to `Fade`; the route-pair resolver of `AnimatedOutlet`
resolves every unmapped pair — in particular every pair with `Home` on
neither side — to `none` (the outlet renders without a transition)
rather than to `Fade`. -/
theorem resolver_default_amended :
    (∀ rs : List String,
        (Route.PageNotFound rs).get_transition = TransitionVariant.Fade) ∧
    (∀ f t : Route, f ≠ Route.Home → t ≠ Route.Home →
        from_route_variant f t = none) := by
  refine ⟨fun rs => rfl, ?_⟩
  intro f t hf ht
  cases f <;> cases t <;>
    first
      | rfl
      | exact absurd rfl hf
      | exact absurd rfl ht

/-- Witness for `resolver_default_amended` at the concrete unmapped
pair `(SlideUp, SlideDown)`. -/
theorem resolver_default_amended_witness :
    from_route_variant Route.SlideUp Route.SlideDown = none :=
  resolver_default_amended.2 Route.SlideUp Route.SlideDown
    (by decide) (by decide)

/-- C5.  Direction sensitivity of the `AnimatedOutlet` resolver: the
mapping is per ordered pair, and reversing a slide pair inverts the
variant — `(Home, SlideLeft) ↦ SlideLeft` but
`(SlideLeft, Home) ↦ SlideRight`, and likewise for the other three
slide routes. -/
theorem direction_sensitivity :
    from_route_variant Route.Home Route.SlideLeft =
        some TransitionVariant.SlideLeft ∧
    from_route_variant Route.SlideLeft Route.Home =
        some TransitionVariant.SlideRight ∧
    from_route_variant Route.Home Route.SlideRight =
        some TransitionVariant.SlideRight ∧
    from_route_variant Route.SlideRight Route.Home =
        some TransitionVariant.SlideLeft ∧
    from_route_variant Route.Home Route.SlideUp =
        some TransitionVariant.SlideUp ∧
    from_route_variant Route.SlideUp Route.Home =
        some TransitionVariant.SlideDown ∧
    from_route_variant Route.Home Route.SlideDown =
        some TransitionVariant.SlideDown ∧
    from_route_variant Route.SlideDown Route.Home =
        some TransitionVariant.SlideUp :=
  ⟨rfl, rfl, rfl, rfl, rfl, rfl, rfl, rfl⟩

/-- C6.  Transform parameter table: each slide variant of
`get_transform` (main.rs) translates ±100 on exactly one axis with
scale 1; `Scale` uses scale 1/2 with no translation; `Fade` has no
translation; and in will_hide.rs the `SlideLeft` config's `final_from`
has `x = -100`, `y = 0`, `scale = 1`. -/
theorem transform_parameter_table :
    TransitionVariant.SlideLeft.get_transform = Transform.new (-100) 0 1 0 ∧
    TransitionVariant.SlideRight.get_transform = Transform.new 100 0 1 0 ∧
    TransitionVariant.SlideUp.get_transform = Transform.new 0 (-100) 1 0 ∧
    TransitionVariant.SlideDown.get_transform = Transform.new 0 100 1 0 ∧
    (TransitionVariant.Scale.get_transform.scale = 1/2 ∧
      TransitionVariant.Scale.get_transform.x = 0 ∧
      TransitionVariant.Scale.get_transform.y = 0) ∧
    (TransitionVariant.Fade.get_transform.x = 0 ∧
      TransitionVariant.Fade.get_transform.y = 0) ∧
    (WillHide.TransitionVariant.SlideLeft.get_config.final_from.x = -100 ∧
      WillHide.TransitionVariant.SlideLeft.get_config.final_from.y = 0 ∧
      WillHide.TransitionVariant.SlideLeft.get_config.final_from.scale = 1) :=
  ⟨rfl, rfl, rfl, rfl, ⟨rfl, rfl, rfl⟩, ⟨rfl, rfl⟩, ⟨rfl, rfl, rfl⟩⟩

/-- C10.  Destination-only resolution in the will_hide outlet: for a
state `FromTo(from, to)` the chosen variant is `to.get_transition()`,
so two transitions with the same destination but different departing
routes always get the same variant. -/
theorem will_hide_variant_destination_only (f1 f2 t : Route) :
    WillHide.from_route_variant (AnimatedRouterContext.FromTo f1 t) =
        WillHide.from_route_variant (AnimatedRouterContext.FromTo f2 t) :=
  rfl

end AnimatedRouter

namespace AnimatedRouter.Motion

/-! ## Interpolation engine

The tween and spring engines live in the external `dioxus_motion`
crate; this repository supplies the easing closure and the spring
constants.  The easing function below is embedded from the source; the
tick loops around it are modelled from the spec. -/

/-- The cubic ease-in-out closure passed to `Tween::with_easing` in
`FromRouteToCurrent` (main.rs lines 118–127): arguments are elapsed
time `t`, initial value `b`, total change `c` and duration `d`; the
closure rescales `t` by `d / 2`, applies the first cubic half below 1
and the second half above. -/
def ease (t b c d : ℚ) : ℚ :=
  let t := t / (d / 2)
  if t < 1 then c / 2 * t * t * t + b
  else
    let t := t - 2
    c / 2 * (t * t * t + 2) + b

/-- Modelled from the spec: the Tween mode of the external
`dioxus_motion` interpolation engine, which is not part of this
repository.  Per §4.3, the value follows the easing function of the
elapsed time while `elapsed < duration`, and at `t >= 1` (cumulative
elapsed at or beyond the duration) "value snaps exactly to `target` and
`running` becomes false" (no overshoot).  Returns the pair
(current value, running flag). -/
def tween_tick (elapsed duration b target : ℚ) : ℚ × Bool :=
  if duration ≤ elapsed then (target, false)
  else (ease elapsed b (target - b) duration, true)

/-- The `Spring` parameter struct of dioxus_motion, holding the preset
constants of will_hide.rs lines 136–141: stiffness 160.0, damping 20.0,
mass 1.5, initial velocity 10.0. -/
structure Spring where
  stiffness : ℚ
  damping : ℚ
  mass : ℚ
  velocity : ℚ
  deriving DecidableEq, Repr

/-- The spring preset of `FromRouteToCurrent` in will_hide.rs
(lines 136–141). -/
def preset_spring : Spring := ⟨160, 20, 3/2, 10⟩

/-- One interpolation instance of the spring engine: current value,
velocity, running flag. -/
structure SpringState where
  current : ℚ
  velocity : ℚ
  running : Bool
  deriving DecidableEq, Repr

/-- Modelled from the spec: one tick of the Spring mode of the external
`dioxus_motion` interpolation engine, which is not part of this
repository.  Per §4.3: `force = -stiffness*(value-target) -
damping*velocity`, `acceleration = force/mass`, integrated per tick by
semi-implicit Euler; `running` becomes false when both
displacement-from-target and velocity fall under a small fixed epsilon,
taken here as 1/100 (the two-sided comparisons spell out
`|displacement| < 1/100` and `|velocity| < 1/100`). -/
def spring_tick (p : Spring) (target dt : ℚ) (s : SpringState) : SpringState :=
  if s.running = false then s
  else
    let force := -p.stiffness * (s.current - target) - p.damping * s.velocity
    let accel := force / p.mass
    let v := s.velocity + accel * dt
    let x := s.current + v * dt
    if (-(1/100) < x - target ∧ x - target < 1/100) ∧
        (-(1/100) < v ∧ v < 1/100) then ⟨x, v, false⟩
    else ⟨x, v, true⟩

/-- The preset spring driven at 60 ticks per second toward target 0,
starting at displacement 100 with the preset initial velocity 10:
state after `n` ticks. -/
def spring_run : ℕ → SpringState
  | 0 => ⟨100, 10, true⟩
  | n + 1 => spring_tick preset_spring 0 (1/60) (spring_run n)

end AnimatedRouter.Motion

namespace AnimatedRouter.Motion

/-! ## Claims C7 and C8 about the interpolation engine -/

set_option maxRecDepth 10000

/-- C7.  Tween boundary exactness for the cubic ease-in-out easing of
main.rs and the (spec-modelled) tween engine: for any positive duration
`d`, the easing returns the initial value `b` at elapsed 0 and exactly
`b + c` at elapsed `d`; the engine's tick at elapsed 0 returns the
initial value with `running = true`, and at any elapsed at or beyond
the duration it returns exactly the target with `running = false` (no
overshoot). -/
theorem tween_boundary (b c d : ℚ) (hd : 0 < d) :
    ease 0 b c d = b ∧
    ease d b c d = b + c ∧
    (∀ tgt : ℚ, tween_tick 0 d b tgt = (b, true)) ∧
    (∀ e tgt : ℚ, d ≤ e → tween_tick e d b tgt = (tgt, false)) := by
  have hd0 : d ≠ 0 := ne_of_gt hd
  have h0 : ease 0 b c d = b := by
    unfold ease
    rw [zero_div, if_pos (by norm_num : (0:ℚ) < 1)]
    ring
  have h2 : d / (d / 2) = 2 := by
    rw [div_div_eq_mul_div, mul_comm]
    exact mul_div_cancel_right₀ 2 hd0
  have hD : ease d b c d = b + c := by
    unfold ease
    rw [h2, if_neg (by norm_num : ¬(2:ℚ) < 1)]
    ring
  refine ⟨h0, hD, ?_, ?_⟩
  · intro tgt
    unfold tween_tick
    rw [if_neg (not_le.mpr hd)]
    rw [show ease 0 b (tgt - b) d = b from by
      unfold ease
      rw [zero_div, if_pos (by norm_num : (0:ℚ) < 1)]
      ring]
  · intro e tgt he
    unfold tween_tick
    rw [if_pos he]

/-- Witness for `tween_boundary` at `b = 0`, `c = 7`, duration `2`,
target `7`, overshooting elapsed `3`. -/
theorem tween_boundary_witness :
    ease 0 0 7 2 = 0 ∧ ease 2 0 7 2 = 0 + 7 ∧
    tween_tick 0 2 0 7 = (0, true) ∧ tween_tick 3 2 0 7 = (7, false) := by
  obtain ⟨h0, hD, ht0, htd⟩ := tween_boundary 0 7 2 (by norm_num)
  exact ⟨h0, hD, ht0 7, htd 3 7 (by norm_num)⟩

/-- C8.  Spring convergence: with the preset constants (stiffness 160,
damping 20, mass 3/2, initial velocity 10), starting at displacement
100 from the target, the engine reports `running = false` within 120
ticks at 60 ticks per second (2 seconds of simulated time); once
stopped the tick loop keeps the instance stopped, so the flag at tick
120 witnesses settling at some earlier tick (the run in fact settles at
tick 90). -/
theorem spring_converges : (spring_run 120).running = false := by
  with_unfolding_all decide

end AnimatedRouter.Motion
